import Mathlib

/-!
Shallow embedding of the Heron wellnest classification worker core:
the daily feature pipeline (`app/controllers/classification_controller.py`)
and the weekly rule engine (`app/services/weekly_classification_service.py`).

Modelling conventions:
* Python floats are modelled by exact rationals (`ℚ`);
* Python dicts are modelled by association lists with first-match lookup
  (the dicts built by this code never carry duplicate keys);
* fallible persistence calls are modelled by an `Except`-valued parameter
  standing for the outcome of the external database call;
* Python string methods used by the code (`lower`, `strip`, `startswith`,
  substring membership, capitalisation) are modelled on `String.data`
  character lists (the repository only deals in ASCII labels).
-/

namespace Heron

/-! ### Python string primitives used by the controller code -/

/-- Python `s.lower()` acting per character (ASCII case mapping). -/
def pyLower (s : String) : String := ⟨s.data.map Char.toLower⟩

/-- Python `s.strip()`: drop whitespace at both ends. -/
def pyStrip (s : String) : String :=
  ⟨((s.data.dropWhile Char.isWhitespace).reverse.dropWhile Char.isWhitespace).reverse⟩

/-- Python `s.startswith(pre)`. -/
def pyStartswith (s pre : String) : Bool := pre.data.isPrefixOf s.data

/-- Executable check that `sub` occurs as a contiguous run inside `l`. -/
def charsContain (l sub : List Char) : Bool :=
  sub.isPrefixOf l ||
    match l with
    | [] => false
    | _ :: t => charsContain t sub

/-- Python substring membership `sub in s`. -/
def pyContains (s sub : String) : Bool := charsContain s.data sub.data

/-- Python `name[0].upper() + name[1:].lower()` (callers guard nonemptiness). -/
def pyCapitalize (s : String) : String :=
  match s.data with
  | [] => ""
  | c :: rest => ⟨c.toUpper :: rest.map Char.toLower⟩

/-! ### `_normalize_mood` / `_one_hot_moods` (controller lines 37-55) -/

/-- The Python runtime values a raw mood selection can carry. -/
inductive PyVal where
  | vnone
  | vint (n : Int)
  | vbool (b : Bool)
  | vstr (s : String)
deriving DecidableEq, Repr

/-- `_normalize_mood` (controller lines 37-47).  The source guard
`isinstance(val, int)` is true for Python booleans as well, because
`bool` is a subclass of `int`; hence the `vbool` branch returns `none`. -/
def normalize_mood : PyVal → Option String
  | .vnone => none
  | .vint _ => none
  | .vbool _ => none
  | .vstr s =>
      let name := pyStrip s
      if name = "" then none
      else some (pyCapitalize name)

/-- The fixed 16-emotion universe (controller lines 30-35). -/
def EMOTIONS : List String :=
  ["Depressed", "Sad", "Exhausted", "Hopeless",
   "Anxious", "Angry", "Stressed", "Restless",
   "Calm", "Relaxed", "Peaceful", "Content",
   "Happy", "Energized", "Excited", "Motivated"]

/-- `hot[name] = 1` on the association list representing the dict. -/
def setEmotion (hot : List (String × Nat)) (k : String) : List (String × Nat) :=
  hot.map fun p => if p.1 = k then (p.1, 1) else p

/-- `_one_hot_moods` (controller lines 49-55): start from all 16 emotions at 0,
then set to 1 every recognised normalised selection. -/
def one_hot_moods (selected : List PyVal) : List (String × Nat) :=
  selected.foldl
    (fun hot raw =>
      match normalize_mood raw with
      | some name => if hot.any (fun p => p.1 = name) then setEmotion hot name else hot
      | none => hot)
    (EMOTIONS.map fun e => (e, 0))

/-! ### `_aggregate_wellness_probs` (controller lines 59-86) -/

/-- A value stored under one of the `L1`..`L5` keys of a parsed wellness dict:
`num q` is a value accepted by Python `float(v)` (int/float/numeric string/bool),
`bad` is a non-null value on which `float(v)` raises `ValueError`/`TypeError`,
`vnull` is a JSON null (so `ws.get(k)` yields Python `None`). -/
inductive WellVal where
  | num (q : ℚ)
  | bad
  | vnull
deriving DecidableEq, Repr

/-- The `wellness_state` payload of one journal entry:
either a structured mapping, a JSON-encoded string (`some` = the decoded
object, `none` = `json.JSONDecodeError`), or missing/None. -/
inductive WellnessState where
  | wsMap (m : List (String × WellVal))
  | wsStr (parsed : Option (List (String × WellVal)))
  | wsNone
deriving DecidableEq, Repr

/-- `ws = item.get("wellness_state") or {}` followed by the
`isinstance(ws, str)` / `json.loads` block (controller lines 64-70):
a missing payload and a malformed JSON string both end up as `{}`. -/
def coerce_ws : WellnessState → List (String × WellVal)
  | .wsMap m => m
  | .wsStr (some m) => m
  | .wsStr none => []
  | .wsNone => []

/-- `ws.get(k)` on the association list modelling the dict. -/
def wsGet (m : List (String × WellVal)) (k : String) : Option WellVal :=
  (m.find? fun p => p.1 == k).map (·.2)

/-- The numeric contribution of key `k` in a parsed wellness mapping:
`some q` exactly when `ws.get(k)` is non-None and `float(v)` succeeds. -/
def contrib (ws : List (String × WellVal)) (k : String) : Option ℚ :=
  match wsGet ws k with
  | some (.num q) => some q
  | _ => none

/-- `totals[k] += float(v)` guarded by the try/except: no contribution
leaves the running total unchanged. -/
def addContrib (t : ℚ) (o : Option ℚ) : ℚ :=
  match o with
  | some q => t + q
  | none => t

/-- `any_num` for one entry: at least one of the five keys contributed. -/
def entry_any_num (ws : List (String × WellVal)) : Bool :=
  (contrib ws "L1").isSome || (contrib ws "L2").isSome || (contrib ws "L3").isSome ||
    (contrib ws "L4").isSome || (contrib ws "L5").isSome

/-- The running `totals` dict, with the five fixed keys `L1`..`L5`
(`ALL_LABELS` in the source) as fields. -/
structure WTotals where
  tL1 : ℚ
  tL2 : ℚ
  tL3 : ℚ
  tL4 : ℚ
  tL5 : ℚ
deriving DecidableEq, Repr

/-- The body of the `for item in journals` loop (controller lines 63-83),
with the inner `for k in ALL_LABELS` loop unrolled over the five keys. -/
def processEntry (st : WTotals × Nat) (item : WellnessState) : WTotals × Nat :=
  let ws := coerce_ws item
  let t := st.1
  let t' : WTotals :=
    ⟨addContrib t.tL1 (contrib ws "L1"), addContrib t.tL2 (contrib ws "L2"),
     addContrib t.tL3 (contrib ws "L3"), addContrib t.tL4 (contrib ws "L4"),
     addContrib t.tL5 (contrib ws "L5")⟩
  (t', if entry_any_num ws then st.2 + 1 else st.2)

/-- The returned probability dict, keyed through `LABEL_TO_PKEY`
(`L1`→`p_anxiety`, `L2`→`p_normal`, `L3`→`p_depressed`, `L4`→`p_suicidal`,
`L5`→`p_stressed`). -/
structure WellnessProbs where
  p_anxiety : ℚ
  p_normal : ℚ
  p_depressed : ℚ
  p_suicidal : ℚ
  p_stressed : ℚ
deriving DecidableEq, Repr

/-- `_aggregate_wellness_probs` (controller lines 59-86):
`avgs = {k: totals[k] / counted if counted else 0.0}` renamed to `p_*` keys. -/
def aggregate_wellness_probs (journals : List WellnessState) : WellnessProbs :=
  let r := journals.foldl processEntry (⟨0, 0, 0, 0, 0⟩, 0)
  let counted := r.2
  let avg : ℚ → ℚ := fun t => if counted = 0 then 0 else t / (counted : ℚ)
  ⟨avg r.1.tL1, avg r.1.tL2, avg r.1.tL3, avg r.1.tL4, avg r.1.tL5⟩

/-! Spec-side reformulation of the aggregation (per-key sums over all
entries, one shared divisor), used to state the claims independently of
the fold above. -/

/-- Spec-side: the sum of key `k`'s numeric values across all entries. -/
def specKeySum (journals : List WellnessState) (k : String) : ℚ :=
  (journals.map fun j => (contrib (coerce_ws j) k).getD 0).sum

/-- Spec-side: the number of entries in which at least one of the five
keys was numeric. -/
def specCounted (journals : List WellnessState) : Nat :=
  journals.countP fun j => entry_any_num (coerce_ws j)

/-! ### `_normalize_flipfeel_label` / `_compute_flipfeel_pct_from_sessions`
(controller lines 89-95 and 114-148) -/

/-- `_normalize_flipfeel_label` (controller lines 114-127).  A raw label is an
`Option String`; `none` and the empty string are both falsy in Python, so both
hit the `if not label` guard. -/
def normalize_flipfeel_label (label : Option String) : Option String :=
  match label with
  | none => none
  | some l =>
      if l = "" then none
      else
        let s := pyLower (pyStrip l)
        if pyContains s "crisi" || pyContains s "crisis" then some "InCrisis"
        else if pyContains s "excelling" then some "Excelling"
        else if pyContains s "thriv" then some "Thriving"
        else if pyContains s "struggl" then some "Struggling"
        else none

/-- The four percentage fields returned by the flip-feel aggregation
(`flipfeel_incrisis_pct`, `flipfeel_struggling_pct`, `flipfeel_thriving_pct`,
`flipfeel_excelling_pct`). -/
structure FlipfeelPct where
  incrisis : ℚ
  struggling : ℚ
  thriving : ℚ
  excelling : ℚ
deriving DecidableEq, Repr

/-- `_default_flipfeel_pct` (controller lines 89-95). -/
def default_flipfeel_pct : FlipfeelPct := ⟨0, 0, 0, 0⟩

/-- The `counts` dict of the source, with the four label buckets as fields. -/
structure FlipCounts where
  excelling : Nat
  thriving : Nat
  struggling : Nat
  incrisis : Nat
deriving DecidableEq, Repr

/-- The body of the inner `for l in labels` loop (controller lines 136-140):
`counts[norm] += 1; total += 1` for a recognised label.  The catch-all
branch is unreachable because `_normalize_flipfeel_label` only produces the
four bucket names. -/
def countLabel (st : FlipCounts × Nat) (l : Option String) : FlipCounts × Nat :=
  match normalize_flipfeel_label l with
  | some "InCrisis" => (⟨st.1.excelling, st.1.thriving, st.1.struggling, st.1.incrisis + 1⟩, st.2 + 1)
  | some "Excelling" => (⟨st.1.excelling + 1, st.1.thriving, st.1.struggling, st.1.incrisis⟩, st.2 + 1)
  | some "Thriving" => (⟨st.1.excelling, st.1.thriving + 1, st.1.struggling, st.1.incrisis⟩, st.2 + 1)
  | some "Struggling" => (⟨st.1.excelling, st.1.thriving, st.1.struggling + 1, st.1.incrisis⟩, st.2 + 1)
  | some _ => st
  | none => st

/-- `_compute_flipfeel_pct_from_sessions` (controller lines 129-148).  A
session is modelled by its `mood_labels` list (`sess.get("mood_labels") or []`
turns a missing/None list into `[]`). -/
def compute_flipfeel_pct_from_sessions (sessions : List (List (Option String))) : FlipfeelPct :=
  if sessions = [] then default_flipfeel_pct
  else
    let r : FlipCounts × Nat :=
      sessions.foldl (fun st sess => sess.foldl countLabel st) (⟨0, 0, 0, 0⟩, 0)
    let counts := r.1
    let total := r.2
    if total = 0 then default_flipfeel_pct
    else
      ⟨(counts.incrisis : ℚ) / (total : ℚ), (counts.struggling : ℚ) / (total : ℚ),
       (counts.thriving : ℚ) / (total : ℚ), (counts.excelling : ℚ) / (total : ℚ)⟩

/-- Spec-side: the total count of recognised normalised labels across all
sessions. -/
def recognizedTotal (sessions : List (List (Option String))) : Nat :=
  (sessions.map fun sess => sess.countP fun l => (normalize_flipfeel_label l).isSome).sum

/-- Sum of the four bucket counters. -/
def sumCounts (c : FlipCounts) : Nat := c.excelling + c.thriving + c.struggling + c.incrisis

/-! ### Weekly rule engine
(`app/services/weekly_classification_service.py`, `classify_and_record_week`)

The fetch/filter steps (lines 65-72) are external I/O; the embedding starts
from the `normalized` list of `{"date": classified_at, "label": label}`
records built on lines 75-78, with timestamps abstracted to naturals.
The persistence call (lines 154-163) is modelled by an `Except`-valued
parameter carrying the outcome of `weekly_repo.create`. -/

/-- One record of the `normalized` list: a classification timestamp and the
(possibly null) label string produced by `_classification_to_str`. -/
structure DailyEntry where
  date : Nat
  label : Option String
deriving DecidableEq, Repr

/-- Stable insertion into an ascending date-sorted list: an element with an
equal date goes after the existing ones, matching Python's stable
`list.sort(key=lambda x: x["date"])`. -/
def insertByDate (x : DailyEntry) : List DailyEntry → List DailyEntry
  | [] => [x]
  | y :: ys => if x.date < y.date then x :: y :: ys else y :: insertByDate x ys

/-- `normalized.sort(key=lambda x: x["date"])` (line 79). -/
def sortByDate (l : List DailyEntry) : List DailyEntry :=
  l.foldl (fun acc x => insertByDate x acc) []

/-- `labels = [x["label"] for x in normalized if x["label"] is not None]` (line 81). -/
def labelsOf (normalized : List DailyEntry) : List String :=
  normalized.filterMap (·.label)

/-- Predicate `rec["label"] in candidates` used by the tie-break loop
(line 94); `None in candidates` is false. -/
def labelInCandidates (candidates : List String) (lab : Option String) : Bool :=
  match lab with
  | some l => candidates.contains l
  | none => false

/-- `most_common_count = max(counts.values())` (line 87): `Counter(labels)`
maps each distinct label to its count, so the values are the counts of the
deduplicated labels. -/
def mostCommonCount (labels : List String) : Nat :=
  (labels.dedup.map fun l => labels.count l).foldr max 0

/-- `candidates = [lab for lab, cnt in counts.items() if cnt == most_common_count]`
(line 88): the distinct labels whose count is maximal (only the length and
membership of this list are ever used, so its ordering is immaterial). -/
def dominantCandidates (labels : List String) : List String :=
  labels.dedup.filter fun l => labels.count l == mostCommonCount labels

/-- The dominant-classification block (lines 84-96): most common label;
on a tie, the most recent entry whose label is among the tied candidates. -/
def dominantOf (normalized : List DailyEntry) : Option String :=
  if labelsOf normalized = [] then none
  else if (dominantCandidates (labelsOf normalized)).length = 1 then
    (dominantCandidates (labelsOf normalized)).head?
  else
    (normalized.reverse.find? fun rec =>
      labelInCandidates (dominantCandidates (labelsOf normalized)) rec.label).bind (·.label)

/-- Spec-side: the maximal frequency among the window's non-null labels. -/
def maxFreq (labels : List String) : Nat :=
  (labels.map fun l => labels.count l).foldr max 0

/-- Spec-side: does this entry carry a label of maximal frequency? -/
def isMaxFreqEntry (normalized : List DailyEntry) (rec : DailyEntry) : Bool :=
  match rec.label with
  | some l => (labelsOf normalized).count l == maxFreq (labelsOf normalized)
  | none => false

/-- Spec-side: the label of the chronologically latest entry whose label has
maximal frequency (the claim's "most frequent, ties broken towards the
latest tied entry" in one rule). -/
def latestMaxFreqLabel (normalized : List DailyEntry) : Option String :=
  (normalized.reverse.find? (isMaxFreqEntry normalized)).bind (·.label)

/-- `_SEVERITY_ORDER` (service lines 11-21): canonical and lowercase keys. -/
def SEVERITY_ORDER : List (String × Nat) :=
  [("Excelling", 0), ("Thriving", 1), ("Struggling", 2), ("InCrisis", 3),
   ("excelling", 0), ("thriving", 1), ("struggling", 2), ("incrisis", 3)]

/-- `_SEVERITY_ORDER.get(k)`. -/
def severityGet (k : String) : Option Nat :=
  (SEVERITY_ORDER.find? fun p => p.1 == k).map (·.2)

/-- `severity(label)` (lines 106-109): `None` for falsy labels, else lookup
with a lowercase fallback. -/
def severity (label : Option String) : Option Nat :=
  match label with
  | none => none
  | some l =>
      if l = "" then none
      else
        match severityGet l with
        | some v => some v
        | none => severityGet (pyLower l)

/-- R3's trigger (lines 134-135): exactly three non-null severities, strictly
worsening. -/
def r3_downward : List (Option Nat) → Bool
  | [some a, some b, some c] => decide (a < b) && decide (b < c)
  | _ => false

/-- The row returned by `StudentWeeklyClassificationRepository.create`. -/
structure WeeklyRow where
  student_id : String
  dominant_classification : Option String
deriving DecidableEq, Repr

/-- The result dict of `classify_and_record_week` (lines 165-178). -/
structure WeeklyVerdict where
  dominant_classification : Option String
  count_in_crisis : Nat
  count_struggling : Nat
  total_valid_days : Nat
  last_3_labels : List String
  flagged : Bool
  review_for_missing : Bool
  reasons : List String
  persisted_row : Option WeeklyRow
deriving DecidableEq, Repr

/-- `l and l.lower() == "incrisis"` (line 99). -/
def isInCrisisLabel (l : String) : Bool := (!(l == "")) && (pyLower l == "incrisis")

/-- `l and l.lower() == "struggling"` (line 100). -/
def isStrugglingLabel (l : String) : Bool := (!(l == "")) && (pyLower l == "struggling")

/-- `classify_and_record_week` from the `normalized` list on (service lines
79-179).  Each Python `if cond: flag = True; reasons.append(r)` step is
linearised into `flag' := flag || cond` and a conditional append. -/
def classify_and_record_week (week_entries : List DailyEntry)
    (persistResult : Except String WeeklyRow) : WeeklyVerdict :=
  let normalized := sortByDate week_entries
  let labels := labelsOf normalized
  let dominant := dominantOf normalized
  let count_in_crisis := labels.countP isInCrisisLabel
  let count_struggling := labels.countP isStrugglingLabel
  let total_valid_days := labels.length
  let last3 := labels.drop (labels.length - 3)
  let last3_sev := last3.map fun l => severity (some l)
  -- R6: missing data
  let review_for_missing := decide (total_valid_days < 4)
  let reasons0 : List String :=
    if total_valid_days < 4 then ["R6: <4 valid daily classifications (data anomaly)"] else []
  -- R1: critical frequency
  let flag1 := decide (2 ≤ count_in_crisis)
  let reasons1 := if 2 ≤ count_in_crisis then reasons0 ++ ["R1: count_in_crisis >= 2"] else reasons0
  -- R2: persistent struggle
  let flag2 := flag1 || decide (4 ≤ count_struggling)
  let reasons2 := if 4 ≤ count_struggling then reasons1 ++ ["R2: count_struggling >= 4"] else reasons1
  -- R3: downward trend
  let flag3 := flag2 || r3_downward last3_sev
  let reasons3 :=
    if r3_downward last3_sev then reasons2 ++ ["R3: downward trend in last 3 days"] else reasons2
  -- R4: mixed but worrying (the inner last_label binding is hoisted out)
  let last_label : Option String := if last3 ≠ [] then last3.getLast? else labels.getLast?
  let r4 := decide (3 ≤ count_in_crisis + count_struggling) &&
    (match last_label with
     | some l => (!(l == "")) && (pyLower l == "struggling" || pyLower l == "incrisis")
     | none => false)
  let flag4 := flag3 || r4
  let reasons4 :=
    if r4 then reasons3 ++ ["R4: mixed but worrying counts and last is Struggling or InCrisis"]
    else reasons3
  -- R5: stable improvement override
  let r5 := (last3.length == 3) &&
    last3.all fun l => (!(l == "")) && (pyLower l == "thriving" || pyLower l == "excelling")
  let flag5 := if r5 then false else flag4
  let reasons5 :=
    if r5 then (reasons4.filter fun r => !(pyStartswith r "R")) ++
        ["R5: stable improvement (do not flag)"]
    else reasons4
  -- persistence (lines 154-163): failure is caught and recorded as a reason
  let created : Option WeeklyRow :=
    match persistResult with
    | .ok row => some row
    | .error _ => none
  let reasons6 :=
    match persistResult with
    | .ok _ => reasons5
    | .error e => reasons5 ++ ["persist_error: " ++ e]
  ⟨dominant, count_in_crisis, count_struggling, total_valid_days, last3, flag5,
   review_for_missing, reasons6, created⟩

/-! ### Daily persistence of the classification row
(`classify_today_entries` lines 252-264 and
`StudentClassificationRepository.create`/`_to_enum`) -/

/-- `ClassificationLabel` enum (`app/model/student_classification_model.py`). -/
inductive ClassificationLabel where
  | Excelling
  | Thriving
  | Struggling
  | InCrisis
deriving DecidableEq, Repr

/-- The enum member's `.value` string; for this enum `.name` coincides with
`.value` and contains no underscore, so the three comparisons of `_to_enum`
(`e.value == val`, `e.name == val`, `e.name.replace("_", "-") == val`)
all reduce to this one. -/
def ClassificationLabel.value : ClassificationLabel → String
  | .Excelling => "Excelling"
  | .Thriving => "Thriving"
  | .Struggling => "Struggling"
  | .InCrisis => "InCrisis"

/-- Iteration order of `for e in ClassificationLabel`. -/
def allClassificationLabels : List ClassificationLabel :=
  [.Excelling, .Thriving, .Struggling, .InCrisis]

/-- `StudentClassificationRepository._to_enum` on a string input
(`none` models the `ValueError` raise). -/
def to_enum (val : String) : Option ClassificationLabel :=
  allClassificationLabels.find? fun e => e.value == val

/-- The mapped columns of the `StudentClassification` ORM model
(`student_classification_model.py` lines 17-46).  The daily model has NO
`is_flagged` column (only `StudentWeeklyClassification` does). -/
def studentClassificationColumns : List String :=
  ["classification_id", "student_id", "classification", "classified_at"]

/-- The keyword arguments `StudentClassificationRepository.create` passes to
the `StudentClassification` constructor (repository lines 43-49). -/
def repositoryCreateKwargs : List String :=
  ["classification_id", "student_id", "classification", "is_flagged", "classified_at"]

/-- A persisted `StudentClassification` row: exactly the model's data
columns (there is no `is_flagged` field to populate). -/
structure DailyClassificationRow where
  student_id : String
  classification : ClassificationLabel
deriving DecidableEq, Repr

/-- SQLAlchemy's declarative constructor: it raises
`TypeError("... is an invalid keyword argument ...")` on any keyword that is
not a mapped attribute of the model. -/
def declarative_init_check (kwargs : List String) : Except String Unit :=
  match kwargs.find? (fun k => !(studentClassificationColumns.contains k)) with
  | some k =>
      .error ("\x27" ++ k ++ "\x27 is an invalid keyword argument for StudentClassification")
  | none => .ok ()

/-- `StudentClassificationRepository.create` (repository lines 34-53): coerce
the label via `_to_enum` (its `ValueError` on an unknown label is the first
error branch), then construct the ORM row.  Because the kwargs include
`is_flagged`, which the daily model does not map, the constructor raises
`TypeError` before any row object exists.  The source declares
`is_flagged: bool = False` as a default parameter. -/
def repository_create (student_id : String) (classification : String)
    (is_flagged : Bool) : Except String DailyClassificationRow :=
  match to_enum classification with
  | none => .error ("Unknown classification: " ++ classification)
  | some e =>
      match declarative_init_check repositoryCreateKwargs with
      | .error msg => .error msg
      | .ok _ => .ok ⟨student_id, e⟩

/-- The `is_flagged` value computed by the controller
(`classify_today_entries` line 254). -/
def controller_is_flagged (prediction : String) : Bool :=
  prediction == "InCrisis" || prediction == "Struggling"

/-- The controller's persistence attempt for the classification row
(`classify_today_entries` lines 258-266): line 264 calls
`create(student_uuid, prediction)` with `is_flagged` omitted (repository
default `False`), and `except Exception` on line 265 swallows any raise, so
a constructor `TypeError` leaves nothing persisted. -/
def controller_persisted_row (uid prediction : String) : Option DailyClassificationRow :=
  match repository_create uid prediction false with
  | .ok row => some row
  | .error _ => none

/-! ### Per-user model input (`build_model_input`, controller lines 173-203)
and the analytics probability fields (lines 229-240) -/

/-- `model_input.get(k)` over the association list modelling the merged dict;
the merged key sets (`p_*`, `gratitude_flag`, the 16 emotions, the four
`flipfeel_*_pct` keys) are pairwise disjoint, so first-match lookup agrees
with Python's dict merge. -/
def lookup_feature (m : List (String × ℚ)) (k : String) : Option ℚ :=
  (m.find? fun p => p.1 == k).map (·.2)

/-- `model_input = {**probs, "gratitude_flag": ..., **one_hot, **flipfeel}`
(controller lines 192-197). -/
def build_model_input (journals : List WellnessState) (has_grat : Bool)
    (moods : List PyVal) (sessions : List (List (Option String))) : List (String × ℚ) :=
  let probs := aggregate_wellness_probs journals
  let one_hot := one_hot_moods moods
  let flipfeel := compute_flipfeel_pct_from_sessions sessions
  [("p_anxiety", probs.p_anxiety), ("p_normal", probs.p_normal),
   ("p_depressed", probs.p_depressed), ("p_suicidal", probs.p_suicidal),
   ("p_stressed", probs.p_stressed),
   ("gratitude_flag", if has_grat then 1 else 0)] ++
  (one_hot.map fun p => (p.1, (p.2 : ℚ))) ++
  [("flipfeel_incrisis_pct", flipfeel.incrisis),
   ("flipfeel_struggling_pct", flipfeel.struggling),
   ("flipfeel_thriving_pct", flipfeel.thriving),
   ("flipfeel_excelling_pct", flipfeel.excelling)]

/-- One probability field of `analytics_kwargs` (controller lines 232-239):
`float(model_input.get(k)) if model_input.get(k) is not None else None`. -/
def analytics_prob_field (model_input : List (String × ℚ)) (k : String) : Option ℚ :=
  match lookup_feature model_input k with
  | some v => some v
  | none => none

/-! ### Shared helper lemmas -/

lemma addContrib_eq (t : ℚ) (o : Option ℚ) : addContrib t o = t + o.getD 0 := by
  cases o <;> simp [addContrib]

/-- The fold state after processing `journals`, started from an arbitrary
state, is the starting state plus the spec-side sums and count. -/
lemma agg_foldl_eq (journals : List WellnessState) (t : WTotals) (c : Nat) :
    journals.foldl processEntry (t, c) =
      (⟨t.tL1 + specKeySum journals "L1", t.tL2 + specKeySum journals "L2",
        t.tL3 + specKeySum journals "L3", t.tL4 + specKeySum journals "L4",
        t.tL5 + specKeySum journals "L5"⟩, c + specCounted journals) := by
  induction journals generalizing t c with
  | nil =>
      obtain ⟨a, b, c', d, e⟩ := t
      simp [specKeySum, specCounted]
  | cons j rest ih =>
      simp only [List.foldl_cons]
      rw [show processEntry (t, c) j =
            (⟨addContrib t.tL1 (contrib (coerce_ws j) "L1"),
              addContrib t.tL2 (contrib (coerce_ws j) "L2"),
              addContrib t.tL3 (contrib (coerce_ws j) "L3"),
              addContrib t.tL4 (contrib (coerce_ws j) "L4"),
              addContrib t.tL5 (contrib (coerce_ws j) "L5")⟩,
             if entry_any_num (coerce_ws j) then c + 1 else c) from rfl]
      rw [ih]
      simp only [specKeySum, specCounted, List.map_cons, List.sum_cons, List.countP_cons,
        addContrib_eq]
      simp only [Prod.mk.injEq, WTotals.mk.injEq]
      refine ⟨⟨by ring, by ring, by ring, by ring, by ring⟩, ?_⟩
      by_cases h : entry_any_num (coerce_ws j) = true <;> simp [h] <;> try omega

/-- Closed form of the aggregation in terms of the spec-side sums/count. -/
lemma aggregate_eq_spec (journals : List WellnessState) :
    aggregate_wellness_probs journals =
      ⟨(if specCounted journals = 0 then 0 else specKeySum journals "L1" / (specCounted journals : ℚ)),
       (if specCounted journals = 0 then 0 else specKeySum journals "L2" / (specCounted journals : ℚ)),
       (if specCounted journals = 0 then 0 else specKeySum journals "L3" / (specCounted journals : ℚ)),
       (if specCounted journals = 0 then 0 else specKeySum journals "L4" / (specCounted journals : ℚ)),
       (if specCounted journals = 0 then 0 else specKeySum journals "L5" / (specCounted journals : ℚ))⟩ := by
  unfold aggregate_wellness_probs
  rw [agg_foldl_eq]
  simp

/-- `_normalize_flipfeel_label` only ever produces the four bucket names. -/
lemma normalize_flipfeel_label_range (l : Option String) :
    normalize_flipfeel_label l = none ∨ normalize_flipfeel_label l = some "InCrisis" ∨
      normalize_flipfeel_label l = some "Excelling" ∨
      normalize_flipfeel_label l = some "Thriving" ∨
      normalize_flipfeel_label l = some "Struggling" := by
  cases l with
  | none => exact Or.inl rfl
  | some s =>
      simp only [normalize_flipfeel_label]
      split_ifs <;> simp

lemma countLabel_foldl (ls : List (Option String)) (st : FlipCounts × Nat) :
    (ls.foldl countLabel st).2 =
        st.2 + ls.countP (fun l => (normalize_flipfeel_label l).isSome) ∧
      sumCounts (ls.foldl countLabel st).1 =
        sumCounts st.1 + ls.countP (fun l => (normalize_flipfeel_label l).isSome) := by
  induction ls generalizing st with
  | nil => simp
  | cons l rest ih =>
      simp only [List.foldl_cons, List.countP_cons]
      rcases normalize_flipfeel_label_range l with h | h | h | h | h <;>
        · have hc := ih (countLabel st l)
          simp only [countLabel, h] at hc ⊢
          simp only [sumCounts, Option.isSome_none, Option.isSome_some] at hc ⊢
          simp only [if_true, if_false, Bool.false_eq_true, ite_true, ite_false]
          omega

lemma session_foldl (sessions : List (List (Option String))) (st : FlipCounts × Nat) :
    (sessions.foldl (fun st sess => sess.foldl countLabel st) st).2 =
        st.2 + recognizedTotal sessions ∧
      sumCounts (sessions.foldl (fun st sess => sess.foldl countLabel st) st).1 =
        sumCounts st.1 + recognizedTotal sessions := by
  induction sessions generalizing st with
  | nil => simp [recognizedTotal]
  | cons sess rest ih =>
      simp only [List.foldl_cons]
      have h1 := countLabel_foldl sess st
      have h2 := ih (sess.foldl countLabel st)
      simp only [recognizedTotal, List.map_cons, List.sum_cons] at h2 ⊢
      omega

lemma processEntry_wsStr_none (st : WTotals × Nat) :
    processEntry st (WellnessState.wsStr none) = st := rfl

/-- A journal entry whose wellness payload is a malformed JSON string
contributes nothing to the aggregation. -/
lemma aggregate_malformed_skipped (l1 l2 : List WellnessState) :
    aggregate_wellness_probs (l1 ++ WellnessState.wsStr none :: l2) =
      aggregate_wellness_probs (l1 ++ l2) := by
  unfold aggregate_wellness_probs
  simp only [List.foldl_append, List.foldl_cons, processEntry_wsStr_none]

lemma contrib_nonneg_of {ws : List (String × WellVal)}
    (h : ∀ p ∈ ws, ∀ q : ℚ, p.2 = WellVal.num q → 0 ≤ q) {k : String} {q : ℚ}
    (hc : contrib ws k = some q) : 0 ≤ q := by
  unfold contrib wsGet at hc
  cases hf : ws.find? (fun p => p.1 == k) with
  | none => rw [hf] at hc; simp at hc
  | some p =>
      rw [hf] at hc
      simp only [Option.map] at hc
      have hm := List.mem_of_find?_eq_some hf
      cases hv : p.2 with
      | num q' =>
          rw [hv] at hc
          simp only [Option.some.injEq] at hc
          exact hc ▸ h p hm q' hv
      | bad => rw [hv] at hc; simp at hc
      | vnull => rw [hv] at hc; simp at hc

lemma specKeySum_nonneg {journals : List WellnessState} (k : String)
    (hnn : ∀ j ∈ journals, ∀ p ∈ coerce_ws j, ∀ q : ℚ, p.2 = WellVal.num q → 0 ≤ q) :
    0 ≤ specKeySum journals k := by
  apply List.sum_nonneg
  intro x hx
  simp only [List.mem_map] at hx
  obtain ⟨j, hj, rfl⟩ := hx
  cases hc : contrib (coerce_ws j) k with
  | none => simp
  | some q => simpa using contrib_nonneg_of (hnn j hj) hc

/-! ### Claim theorems: daily pipeline -/

/-- Claim C10: a Python boolean mood selection is rejected by
`_normalize_mood` (booleans pass the `isinstance(val, int)` guard), so it
never turns on any of the 16 one-hot emotion indicators. -/
theorem boolean_mood_selection_rejected (b : Bool) (l1 l2 : List PyVal) :
    normalize_mood (PyVal.vbool b) = none ∧
    one_hot_moods (l1 ++ PyVal.vbool b :: l2) = one_hot_moods (l1 ++ l2) := by
  refine ⟨rfl, ?_⟩
  simp only [one_hot_moods, List.foldl_append, List.foldl_cons]
  rfl

/-- Claim C1 (code-bug evidence): for the predictions "InCrisis" and
"Struggling" the controller computes `is_flagged = True` on line 254 but
never passes it anywhere, and no `StudentClassification` row is ever
persisted at all: the daily model has no `is_flagged` column, so the
repository constructor raises `TypeError` on the `is_flagged` keyword on
every call, which the controller catches and logs — so the claimed row with
`is_flagged` matching the prediction never exists. -/
theorem daily_classification_row_never_persisted :
    controller_is_flagged "InCrisis" = true ∧
    repository_create "student-1" "InCrisis" false =
      Except.error
        "\x27is_flagged\x27 is an invalid keyword argument for StudentClassification" ∧
    controller_persisted_row "student-1" "InCrisis" = none ∧
    controller_is_flagged "Struggling" = true ∧
    controller_persisted_row "student-1" "Struggling" = none :=
  ⟨rfl, rfl, rfl, rfl, rfl⟩

/-- Claim C9: the five probability entries of the model input are always
present (the aggregator returns a numeric value for every key), so the
`None` branch of the float-or-null conversion in `analytics_kwargs` is
never taken. -/
theorem analytics_prob_fields_always_present (journals : List WellnessState)
    (has_grat : Bool) (moods : List PyVal) (sessions : List (List (Option String))) :
    (analytics_prob_field (build_model_input journals has_grat moods sessions)
        "p_anxiety").isSome = true ∧
    (analytics_prob_field (build_model_input journals has_grat moods sessions)
        "p_normal").isSome = true ∧
    (analytics_prob_field (build_model_input journals has_grat moods sessions)
        "p_depressed").isSome = true ∧
    (analytics_prob_field (build_model_input journals has_grat moods sessions)
        "p_suicidal").isSome = true ∧
    (analytics_prob_field (build_model_input journals has_grat moods sessions)
        "p_stressed").isSome = true :=
  ⟨rfl, rfl, rfl, rfl, rfl⟩

/-- Claim C4: every returned probability is the per-key sum over all entries
divided by the shared count of entries with at least one numeric key (0 for
all keys when that count is 0); a malformed JSON entry contributes nothing;
and the spec's concrete two-entry example yields `p_anxiety = 0.7`,
`p_depressed = 0.1`. -/
theorem aggregate_wellness_probs_matches_spec (journals : List WellnessState) :
    ((aggregate_wellness_probs journals).p_anxiety =
        if specCounted journals = 0 then 0
        else specKeySum journals "L1" / (specCounted journals : ℚ)) ∧
    ((aggregate_wellness_probs journals).p_normal =
        if specCounted journals = 0 then 0
        else specKeySum journals "L2" / (specCounted journals : ℚ)) ∧
    ((aggregate_wellness_probs journals).p_depressed =
        if specCounted journals = 0 then 0
        else specKeySum journals "L3" / (specCounted journals : ℚ)) ∧
    ((aggregate_wellness_probs journals).p_suicidal =
        if specCounted journals = 0 then 0
        else specKeySum journals "L4" / (specCounted journals : ℚ)) ∧
    ((aggregate_wellness_probs journals).p_stressed =
        if specCounted journals = 0 then 0
        else specKeySum journals "L5" / (specCounted journals : ℚ)) ∧
    (∀ l1 l2 : List WellnessState,
      aggregate_wellness_probs (l1 ++ WellnessState.wsStr none :: l2) =
        aggregate_wellness_probs (l1 ++ l2)) ∧
    aggregate_wellness_probs
        [WellnessState.wsMap [("L1", WellVal.num (4/5))],
         WellnessState.wsMap [("L1", WellVal.num (3/5)), ("L3", WellVal.num (1/5))]] =
      ⟨7/10, 0, 1/10, 0, 0⟩ := by
  refine ⟨?_, ?_, ?_, ?_, ?_, aggregate_malformed_skipped, ?_⟩
  · rw [aggregate_eq_spec]
  · rw [aggregate_eq_spec]
  · rw [aggregate_eq_spec]
  · rw [aggregate_eq_spec]
  · rw [aggregate_eq_spec]
  · have hc : specCounted
        [WellnessState.wsMap [("L1", WellVal.num (4/5))],
         WellnessState.wsMap [("L1", WellVal.num (3/5)), ("L3", WellVal.num (1/5))]] = 2 := by
      decide
    rw [aggregate_eq_spec, hc]
    simp [specKeySum, contrib, wsGet, coerce_ws, List.find?]
    norm_num

/-- Claim C5 counterexample: with the single entry `{"L1": -1}` the returned
`p_anxiety` is negative (outside `[0.0, +inf)`), and `p_normal` is `0.0`
even though an entry did contribute a numeric value for one of the 5 keys. -/
theorem aggregate_range_counterexample :
    ¬(0 ≤ (aggregate_wellness_probs
        [WellnessState.wsMap [("L1", WellVal.num (-1))]]).p_anxiety) ∧
    (aggregate_wellness_probs
        [WellnessState.wsMap [("L1", WellVal.num (-1))]]).p_normal = 0 ∧
    specCounted [WellnessState.wsMap [("L1", WellVal.num (-1))]] ≠ 0 := by
  have hc : specCounted [WellnessState.wsMap [("L1", WellVal.num (-1))]] = 1 := by decide
  refine ⟨?_, ?_, ?_⟩
  · rw [aggregate_eq_spec, hc]
    simp [specKeySum, contrib, wsGet, coerce_ws, List.find?]
  · rw [aggregate_eq_spec, hc]
    simp [specKeySum, contrib, wsGet, coerce_ws, List.find?]
  · rw [hc]
    norm_num

/-- Claim C5 as amended: when every numeric wellness value contributed by
the entries is nonnegative, every returned value lies in `[0.0, +inf)`; all
returned values are `0.0` whenever no entry contributed a numeric value for
any of the 5 keys; and a malformed JSON entry never contributes. -/
theorem aggregate_range_amended (journals l1 l2 : List WellnessState)
    (hnn : ∀ j ∈ journals, ∀ p ∈ coerce_ws j, ∀ q : ℚ, p.2 = WellVal.num q → 0 ≤ q) :
    (0 ≤ (aggregate_wellness_probs journals).p_anxiety ∧
     0 ≤ (aggregate_wellness_probs journals).p_normal ∧
     0 ≤ (aggregate_wellness_probs journals).p_depressed ∧
     0 ≤ (aggregate_wellness_probs journals).p_suicidal ∧
     0 ≤ (aggregate_wellness_probs journals).p_stressed) ∧
    (specCounted journals = 0 → aggregate_wellness_probs journals = ⟨0, 0, 0, 0, 0⟩) ∧
    aggregate_wellness_probs (l1 ++ WellnessState.wsStr none :: l2) =
      aggregate_wellness_probs (l1 ++ l2) := by
  refine ⟨?_, ?_, aggregate_malformed_skipped l1 l2⟩
  · rw [aggregate_eq_spec]
    have hfield : ∀ k : String,
        0 ≤ if specCounted journals = 0 then (0:ℚ)
            else specKeySum journals k / (specCounted journals : ℚ) := by
      intro k
      by_cases h : specCounted journals = 0
      · simp [h]
      · simp only [h, if_false]
        exact div_nonneg (specKeySum_nonneg k hnn) (by positivity)
    exact ⟨hfield "L1", hfield "L2", hfield "L3", hfield "L4", hfield "L5"⟩
  · intro h
    rw [aggregate_eq_spec]
    simp [h]

/-- Claim C5 amended, witness at a concrete nonnegative input. -/
theorem aggregate_range_amended_witness :
    0 ≤ (aggregate_wellness_probs
      [WellnessState.wsMap [("L1", WellVal.num (1/2))]]).p_anxiety := by
  have h := (aggregate_range_amended
      [WellnessState.wsMap [("L1", WellVal.num (1/2))]] [] [] ?_).1.1
  · exact h
  · intro j hj p hp q hq
    simp only [List.mem_singleton] at hj
    subst hj
    simp only [coerce_ws, List.mem_singleton] at hp
    subst hp
    simp only [WellVal.num.injEq] at hq
    rw [← hq]
    norm_num

/-- Claim C7: the four flip-feel percentages sum to exactly 1 (in exact
rational arithmetic) whenever the total count of recognised normalised
labels is positive, and are all exactly 0 when that count is zero or there
are no sessions. -/
theorem flipfeel_pct_sum_one_or_zero (sessions : List (List (Option String))) :
    (0 < recognizedTotal sessions →
      (compute_flipfeel_pct_from_sessions sessions).incrisis +
        (compute_flipfeel_pct_from_sessions sessions).struggling +
        (compute_flipfeel_pct_from_sessions sessions).thriving +
        (compute_flipfeel_pct_from_sessions sessions).excelling = 1) ∧
    ((recognizedTotal sessions = 0 ∨ sessions = []) →
      compute_flipfeel_pct_from_sessions sessions = default_flipfeel_pct) := by
  obtain ⟨ht, hs⟩ := session_foldl sessions (⟨0, 0, 0, 0⟩, 0)
  have htot : (sessions.foldl (fun st sess => sess.foldl countLabel st)
      ((⟨0, 0, 0, 0⟩ : FlipCounts), 0)).2 = recognizedTotal sessions := by
    simpa using ht
  have hsum : sumCounts (sessions.foldl (fun st sess => sess.foldl countLabel st)
      ((⟨0, 0, 0, 0⟩ : FlipCounts), 0)).1 = recognizedTotal sessions := by
    simpa [sumCounts] using hs
  constructor
  · intro hpos
    have hne : sessions ≠ [] := by
      intro h0
      rw [h0] at hpos
      simp [recognizedTotal] at hpos
    have hrt : recognizedTotal sessions ≠ 0 := Nat.pos_iff_ne_zero.mp hpos
    unfold compute_flipfeel_pct_from_sessions
    rw [if_neg hne]
    simp only [htot]
    rw [if_neg hrt]
    simp only []
    rw [div_add_div_same, div_add_div_same, div_add_div_same]
    set c := (sessions.foldl (fun st sess => sess.foldl countLabel st)
      ((⟨0, 0, 0, 0⟩ : FlipCounts), 0)).1 with hcdef
    have hnum : (c.incrisis : ℚ) + c.struggling + c.thriving + c.excelling =
        ((sumCounts c : ℕ) : ℚ) := by
      simp only [sumCounts]
      push_cast
      ring
    rw [hnum, hsum]
    exact div_self (by exact_mod_cast hrt)
  · rintro (h0 | h0)
    · by_cases hes : sessions = []
      · unfold compute_flipfeel_pct_from_sessions
        rw [if_pos hes]
      · unfold compute_flipfeel_pct_from_sessions
        rw [if_neg hes]
        simp only [htot]
        rw [if_pos h0]
    · unfold compute_flipfeel_pct_from_sessions
      rw [if_pos h0]

/-- Claim C7 witness: one session with one recognised label. -/
theorem flipfeel_pct_sum_one_witness :
    0 < recognizedTotal [[some "thriving"]] ∧
    (compute_flipfeel_pct_from_sessions [[some "thriving"]]).incrisis +
      (compute_flipfeel_pct_from_sessions [[some "thriving"]]).struggling +
      (compute_flipfeel_pct_from_sessions [[some "thriving"]]).thriving +
      (compute_flipfeel_pct_from_sessions [[some "thriving"]]).excelling = 1 :=
  ⟨by decide, (flipfeel_pct_sum_one_or_zero [[some "thriving"]]).1 (by decide)⟩

/-- Claim C6: a weekly persistence failure is absorbed: the persisted-row
reference is null, a `persist_error: <detail>` reason is appended, and every
computed verdict field is identical to a run whose persistence succeeds. -/
theorem weekly_persist_failure_isolated (entries : List DailyEntry) (e : String)
    (row : WeeklyRow) :
    (classify_and_record_week entries (Except.error e)).persisted_row = none ∧
    (classify_and_record_week entries (Except.error e)).reasons =
      (classify_and_record_week entries (Except.ok row)).reasons ++
        ["persist_error: " ++ e] ∧
    (classify_and_record_week entries (Except.error e)).dominant_classification =
      (classify_and_record_week entries (Except.ok row)).dominant_classification ∧
    (classify_and_record_week entries (Except.error e)).count_in_crisis =
      (classify_and_record_week entries (Except.ok row)).count_in_crisis ∧
    (classify_and_record_week entries (Except.error e)).count_struggling =
      (classify_and_record_week entries (Except.ok row)).count_struggling ∧
    (classify_and_record_week entries (Except.error e)).total_valid_days =
      (classify_and_record_week entries (Except.ok row)).total_valid_days ∧
    (classify_and_record_week entries (Except.error e)).last_3_labels =
      (classify_and_record_week entries (Except.ok row)).last_3_labels ∧
    (classify_and_record_week entries (Except.error e)).flagged =
      (classify_and_record_week entries (Except.ok row)).flagged ∧
    (classify_and_record_week entries (Except.error e)).review_for_missing =
      (classify_and_record_week entries (Except.ok row)).review_for_missing :=
  ⟨rfl, rfl, rfl, rfl, rfl, rfl, rfl, rfl, rfl⟩

/-! ### R5 override helpers -/

lemma filter_of_filter_not {α : Type} (p : α → Bool) (l : List α) :
    (l.filter fun a => !(p a)).filter p = [] := by
  induction l with
  | nil => rfl
  | cons a t ih =>
      by_cases h : p a = true
      · simp [List.filter_cons, h, ih]
      · simp [List.filter_cons, h, ih]

lemma pyStartswith_persist_error (e : String) :
    pyStartswith ("persist_error: " ++ e) "R" = false := rfl

/-- Under the claims' hypotheses the R5 trigger of the source evaluates to
`true`. -/
lemma r5_condition_true {labels : List String}
    (h3 : 3 ≤ labels.length)
    (hall : ∀ l ∈ labels.drop (labels.length - 3),
      pyLower l = "thriving" ∨ pyLower l = "excelling") :
    (((labels.drop (labels.length - 3)).length == 3) &&
      (labels.drop (labels.length - 3)).all
        (fun l => (!(l == "")) && (pyLower l == "thriving" || pyLower l == "excelling"))) =
      true := by
  have hlen : (labels.drop (labels.length - 3)).length = 3 := by
    rw [List.length_drop]
    omega
  rw [Bool.and_eq_true]
  refine ⟨by simp [hlen], ?_⟩
  rw [List.all_eq_true]
  intro l hl
  have hne : l ≠ "" := by
    intro h0
    rcases hall l hl with h | h <;> rw [h0] at h <;> exact absurd h (by decide)
  rcases hall l hl with h | h <;> simp [hne, h]

/-- Claim C2: when the window holds at least 3 non-null labels and the
trailing three are all Thriving or Excelling (case-insensitive), the verdict
is not flagged and the returned reasons contain exactly one rule-prefixed
entry, namely the R5 reason, regardless of which earlier rules fired and of
the persistence outcome. -/
theorem r5_override_single_rule_reason (entries : List DailyEntry)
    (persistResult : Except String WeeklyRow)
    (h3 : 3 ≤ (labelsOf (sortByDate entries)).length)
    (hall : ∀ l ∈ (labelsOf (sortByDate entries)).drop
        ((labelsOf (sortByDate entries)).length - 3),
      pyLower l = "thriving" ∨ pyLower l = "excelling") :
    (classify_and_record_week entries persistResult).flagged = false ∧
    (classify_and_record_week entries persistResult).reasons.filter
        (fun r => pyStartswith r "R") = ["R5: stable improvement (do not flag)"] := by
  have hr5 := r5_condition_true h3 hall
  have hP5 : pyStartswith "R5: stable improvement (do not flag)" "R" = true := rfl
  cases persistResult with
  | ok row =>
      simp only [classify_and_record_week, hr5, if_true]
      refine ⟨trivial, ?_⟩
      rw [List.filter_append, filter_of_filter_not]
      simp [hP5]
  | error e =>
      simp only [classify_and_record_week, hr5, if_true]
      refine ⟨trivial, ?_⟩
      rw [List.filter_append, List.filter_append, filter_of_filter_not]
      simp [hP5, pyStartswith_persist_error]

/-- Claim C2 witness: three trailing Thriving/Excelling labels. -/
theorem r5_override_single_rule_reason_witness :
    (classify_and_record_week
        [⟨0, some "Thriving"⟩, ⟨1, some "Excelling"⟩, ⟨2, some "Thriving"⟩]
        (Except.ok ⟨"s", none⟩)).flagged = false ∧
    (classify_and_record_week
        [⟨0, some "Thriving"⟩, ⟨1, some "Excelling"⟩, ⟨2, some "Thriving"⟩]
        (Except.ok ⟨"s", none⟩)).reasons.filter
        (fun r => pyStartswith r "R") = ["R5: stable improvement (do not flag)"] :=
  r5_override_single_rule_reason _ _ (by decide) (by decide)

/-- Claim C8: with fewer than 4 non-null labels and the R5 override firing,
`review_for_missing` stays true while R5 only clears the flag and rewrites
the reasons (dropping the R6 reason); the counters, the total and the
dominant label are exactly the pure functions of the window's labels. -/
theorem r5_frame_effect (entries : List DailyEntry)
    (persistResult : Except String WeeklyRow)
    (hlt : (labelsOf (sortByDate entries)).length < 4)
    (h3 : 3 ≤ (labelsOf (sortByDate entries)).length)
    (hall : ∀ l ∈ (labelsOf (sortByDate entries)).drop
        ((labelsOf (sortByDate entries)).length - 3),
      pyLower l = "thriving" ∨ pyLower l = "excelling") :
    (classify_and_record_week entries persistResult).review_for_missing = true ∧
    (classify_and_record_week entries persistResult).flagged = false ∧
    "R6: <4 valid daily classifications (data anomaly)" ∉
      (classify_and_record_week entries persistResult).reasons ∧
    (classify_and_record_week entries persistResult).count_in_crisis =
      (labelsOf (sortByDate entries)).countP isInCrisisLabel ∧
    (classify_and_record_week entries persistResult).count_struggling =
      (labelsOf (sortByDate entries)).countP isStrugglingLabel ∧
    (classify_and_record_week entries persistResult).total_valid_days =
      (labelsOf (sortByDate entries)).length ∧
    (classify_and_record_week entries persistResult).dominant_classification =
      dominantOf (sortByDate entries) := by
  have hr5 := r5_condition_true h3 hall
  have hR6 : pyStartswith "R6: <4 valid daily classifications (data anomaly)" "R" = true := rfl
  cases persistResult with
  | ok row =>
      simp only [classify_and_record_week, hr5, if_true]
      refine ⟨by simp [hlt], trivial, ?_, trivial, trivial, trivial, trivial⟩
      rw [List.mem_append]
      rintro (hmem | hmem)
      · have h2 := (List.mem_filter.mp hmem).2
        rw [hR6] at h2
        simp at h2
      · simp at hmem
  | error e =>
      simp only [classify_and_record_week, hr5, if_true]
      refine ⟨by simp [hlt], trivial, ?_, trivial, trivial, trivial, trivial⟩
      rw [List.mem_append, List.mem_append]
      rintro ((hmem | hmem) | hmem)
      · have h2 := (List.mem_filter.mp hmem).2
        rw [hR6] at h2
        simp at h2
      · simp at hmem
      · rw [List.mem_singleton] at hmem
        have h2 := congrArg (fun s => pyStartswith s "R") hmem
        simp only [hR6, pyStartswith_persist_error] at h2
        exact Bool.noConfusion h2

/-- Claim C8 witness: three Thriving labels (so fewer than 4 in total). -/
theorem r5_frame_effect_witness :
    (classify_and_record_week
        [⟨0, some "Thriving"⟩, ⟨1, some "Thriving"⟩, ⟨2, some "Excelling"⟩]
        (Except.error "db down")).review_for_missing = true ∧
    (classify_and_record_week
        [⟨0, some "Thriving"⟩, ⟨1, some "Thriving"⟩, ⟨2, some "Excelling"⟩]
        (Except.error "db down")).flagged = false :=
  have h := r5_frame_effect
    [⟨0, some "Thriving"⟩, ⟨1, some "Thriving"⟩, ⟨2, some "Excelling"⟩]
    (Except.error "db down") (by decide) (by decide) (by decide)
  ⟨h.1, h.2.1⟩

/-! ### Dominant-label helpers (claim C3) -/

lemma foldr_max_le {m : Nat} : ∀ {l : List Nat}, (∀ x ∈ l, x ≤ m) → l.foldr max 0 ≤ m := by
  intro l
  induction l with
  | nil => intro _; simp
  | cons a t ih =>
      intro h
      simp only [List.foldr_cons]
      exact max_le (h a (by simp)) (ih fun x hx => h x (by simp [hx]))

lemma le_foldr_max {x : Nat} {l : List Nat} (h : x ∈ l) : x ≤ l.foldr max 0 := by
  induction l with
  | nil => simp at h
  | cons a t ih =>
      simp only [List.foldr_cons]
      rcases List.mem_cons.mp h with rfl | h2
      · exact le_max_left _ _
      · exact le_trans (ih h2) (le_max_right _ _)

lemma foldr_max_zero_or_mem (l : List Nat) : l.foldr max 0 = 0 ∨ l.foldr max 0 ∈ l := by
  induction l with
  | nil => exact Or.inl rfl
  | cons a t ih =>
      simp only [List.foldr_cons]
      rcases le_total a (t.foldr max 0) with h | h
      · rw [max_eq_right h]
        rcases ih with h0 | hm
        · exact Or.inl h0
        · exact Or.inr (List.mem_cons_of_mem _ hm)
      · rw [max_eq_left h]
        exact Or.inr (List.mem_cons_self _ _)

lemma find?_congr_mem {α : Type} {p q : α → Bool} :
    ∀ {l : List α}, (∀ x ∈ l, p x = q x) → l.find? p = l.find? q := by
  intro l
  induction l with
  | nil => intro _; rfl
  | cons a t ih =>
      intro h
      have ha := h a (by simp)
      cases hq : q a with
      | true =>
          rw [List.find?_cons_of_pos _ (ha.trans hq), List.find?_cons_of_pos _ hq]
      | false =>
          rw [List.find?_cons_of_neg _ (by simp [ha, hq]),
            List.find?_cons_of_neg _ (by simp [hq])]
          exact ih fun x hx => h x (List.mem_cons_of_mem _ hx)

/-- `max(counts.values())` over the distinct labels equals the spec-side
maximum over the whole label sequence. -/
lemma mostCommonCount_eq_maxFreq (labels : List String) :
    mostCommonCount labels = maxFreq labels := by
  apply le_antisymm
  · apply foldr_max_le
    intro x hx
    obtain ⟨a, ha, rfl⟩ := List.mem_map.mp hx
    exact le_foldr_max (List.mem_map_of_mem _ (List.mem_dedup.mp ha))
  · apply foldr_max_le
    intro x hx
    obtain ⟨a, ha, rfl⟩ := List.mem_map.mp hx
    exact le_foldr_max (List.mem_map_of_mem _ (List.mem_dedup.mpr ha))

lemma mem_dominantCandidates {labels : List String} {l : String} :
    l ∈ dominantCandidates labels ↔ l ∈ labels ∧ labels.count l = maxFreq labels := by
  unfold dominantCandidates
  rw [List.mem_filter, List.mem_dedup, mostCommonCount_eq_maxFreq]
  simp

lemma maxFreq_pos {labels : List String} (h : labels ≠ []) : 1 ≤ maxFreq labels := by
  obtain ⟨a, ha⟩ := List.exists_mem_of_ne_nil labels h
  have h1 : 1 ≤ labels.count a := List.count_pos_iff.mpr ha
  exact le_trans h1 (le_foldr_max (List.mem_map_of_mem _ ha))

lemma exists_label_with_maxFreq {labels : List String} (h : labels ≠ []) :
    ∃ lab ∈ labels, labels.count lab = maxFreq labels := by
  rcases foldr_max_zero_or_mem (labels.map fun l => labels.count l) with h0 | hm
  · have hp := maxFreq_pos h
    unfold maxFreq at hp
    omega
  · obtain ⟨lab, hlab, he⟩ := List.mem_map.mp hm
    exact ⟨lab, hlab, he⟩

lemma label_mem_labelsOf {normalized : List DailyEntry} {rec : DailyEntry} {l : String}
    (hr : rec ∈ normalized) (hl : rec.label = some l) : l ∈ labelsOf normalized :=
  List.mem_filterMap.mpr ⟨rec, hr, hl⟩

lemma labelsOf_mem_exists {normalized : List DailyEntry} {l : String}
    (h : l ∈ labelsOf normalized) : ∃ rec, rec ∈ normalized ∧ rec.label = some l :=
  List.mem_filterMap.mp h

/-- The dominant-label block agrees with the unified "latest entry bearing a
maximal-frequency label" rule, and the chosen label is most frequent. -/
lemma dominantOf_spec {normalized : List DailyEntry} (hne : labelsOf normalized ≠ []) :
    ∃ d, dominantOf normalized = some d ∧
      latestMaxFreqLabel normalized = some d ∧
      (labelsOf normalized).count d = maxFreq (labelsOf normalized) := by
  obtain ⟨lab, hlabmem, hlabcount⟩ := exists_label_with_maxFreq hne
  obtain ⟨rec1, hrec1, hrec1l⟩ := labelsOf_mem_exists hlabmem
  have hrec1p : isMaxFreqEntry normalized rec1 = true := by
    simp [isMaxFreqEntry, hrec1l, hlabcount]
  have hfind : (normalized.reverse.find? (isMaxFreqEntry normalized)).isSome := by
    rw [List.find?_isSome]
    exact ⟨rec1, List.mem_reverse.mpr hrec1, hrec1p⟩
  obtain ⟨rec0, hfind0⟩ := Option.isSome_iff_exists.mp hfind
  have hp0 := List.find?_some hfind0
  have hrec0mem : rec0 ∈ normalized := List.mem_reverse.mp (List.mem_of_find?_eq_some hfind0)
  obtain ⟨d, hd⟩ : ∃ d, rec0.label = some d := by
    cases hl0 : rec0.label with
    | none => rw [isMaxFreqEntry, hl0] at hp0; simp at hp0
    | some d => exact ⟨d, rfl⟩
  have hdcount : (labelsOf normalized).count d = maxFreq (labelsOf normalized) := by
    rw [isMaxFreqEntry, hd] at hp0
    simpa using hp0
  have hdmem : d ∈ labelsOf normalized := label_mem_labelsOf hrec0mem hd
  have hlatest : latestMaxFreqLabel normalized = some d := by
    unfold latestMaxFreqLabel
    rw [hfind0]
    simpa using hd
  refine ⟨d, ?_, hlatest, hdcount⟩
  unfold dominantOf
  rw [if_neg (by simpa using hne)]
  by_cases hcand : (dominantCandidates (labelsOf normalized)).length = 1
  · rw [if_pos hcand]
    obtain ⟨c, hc⟩ := List.length_eq_one.mp hcand
    have hdmemc : d ∈ dominantCandidates (labelsOf normalized) :=
      mem_dominantCandidates.mpr ⟨hdmem, hdcount⟩
    rw [hc] at hdmemc
    rw [List.mem_singleton] at hdmemc
    rw [hc, hdmemc]
    rfl
  · rw [if_neg hcand]
    have hcongr : normalized.reverse.find?
        (fun rec => labelInCandidates (dominantCandidates (labelsOf normalized)) rec.label) =
        normalized.reverse.find? (isMaxFreqEntry normalized) := by
      apply find?_congr_mem
      intro rec hrec
      have hrecmem : rec ∈ normalized := List.mem_reverse.mp hrec
      cases hl : rec.label with
      | none => simp [labelInCandidates, isMaxFreqEntry, hl]
      | some l =>
          have hlm : l ∈ labelsOf normalized := label_mem_labelsOf hrecmem hl
          simp only [labelInCandidates, isMaxFreqEntry, hl]
          by_cases hcnt : (labelsOf normalized).count l = maxFreq (labelsOf normalized)
          · have hmem : l ∈ dominantCandidates (labelsOf normalized) :=
              mem_dominantCandidates.mpr ⟨hlm, hcnt⟩
            simp [List.contains, List.elem_iff, hmem, hcnt]
          · have hnm : l ∉ dominantCandidates (labelsOf normalized) := fun hmem =>
              hcnt (mem_dominantCandidates.mp hmem).2
            simp [List.contains, List.elem_iff, hnm, hcnt]
    rw [hcongr, hfind0]
    simpa using hd

/-- Claim C3: the weekly dominant label is the most frequent label of the
window's non-null label sequence, with frequency ties broken towards the
label of the chronologically latest tied entry, and it is null when the
window has no non-null labels. -/
theorem weekly_dominant_most_frequent_latest_tie (entries : List DailyEntry)
    (persistResult : Except String WeeklyRow) :
    ((labelsOf (sortByDate entries)) = [] →
      (classify_and_record_week entries persistResult).dominant_classification = none) ∧
    ((labelsOf (sortByDate entries)) ≠ [] →
      ∃ d, (classify_and_record_week entries persistResult).dominant_classification = some d ∧
        latestMaxFreqLabel (sortByDate entries) = some d ∧
        (labelsOf (sortByDate entries)).count d =
          maxFreq (labelsOf (sortByDate entries))) := by
  have hdom : (classify_and_record_week entries persistResult).dominant_classification =
      dominantOf (sortByDate entries) := by
    cases persistResult <;> rfl
  constructor
  · intro h
    rw [hdom]
    unfold dominantOf
    rw [if_pos h]
  · intro h
    obtain ⟨d, h1, h2, h3⟩ := dominantOf_spec h
    exact ⟨d, hdom ▸ h1, h2, h3⟩

set_option maxHeartbeats 1000000 in
/-- Claim C3 witness: the spec's tie fixture `[InCrisis, InCrisis,
Excelling, Struggling, Struggling]`; the 2-2 tie resolves to the label of
the latest tied entry, Struggling. -/
theorem weekly_dominant_witness :
    labelsOf (sortByDate
        [⟨0, some "InCrisis"⟩, ⟨1, some "InCrisis"⟩, ⟨2, some "Excelling"⟩,
         ⟨3, some "Struggling"⟩, ⟨4, some "Struggling"⟩]) ≠ [] ∧
    (classify_and_record_week
        [⟨0, some "InCrisis"⟩, ⟨1, some "InCrisis"⟩, ⟨2, some "Excelling"⟩,
         ⟨3, some "Struggling"⟩, ⟨4, some "Struggling"⟩]
        (Except.ok ⟨"s", none⟩)).dominant_classification = some "Struggling" := by
  refine ⟨by decide, ?_⟩
  obtain ⟨d, h1, h2, h3⟩ := (weekly_dominant_most_frequent_latest_tie
      [⟨0, some "InCrisis"⟩, ⟨1, some "InCrisis"⟩, ⟨2, some "Excelling"⟩,
       ⟨3, some "Struggling"⟩, ⟨4, some "Struggling"⟩]
      (Except.ok ⟨"s", none⟩)).2 (by decide)
  have hcomp : latestMaxFreqLabel (sortByDate
      [⟨0, some "InCrisis"⟩, ⟨1, some "InCrisis"⟩, ⟨2, some "Excelling"⟩,
       ⟨3, some "Struggling"⟩, ⟨4, some "Struggling"⟩]) = some "Struggling" := by decide
  rw [h2] at hcomp
  have hds := Option.some.inj hcomp
  exact hds ▸ h1

end Heron
